import Mathlib

/-!
Shallow embedding of `src/benchmark.c`: 5-limb field multiplication in
radix 2^52, in two strategies — schoolbook convolution
(`fe_mul_schoolbook`) and a 14-product Karatsuba-style decomposition
(`fe_mul_karatsuba_opt`). Machine integers are modelled as `ℕ` with
explicit reduction: `uint64_t` arithmetic mod 2^64, `__uint128_t`
arithmetic mod 2^128.
-/

/-- 2^52: the limb radix. `x % M52` models `x & MASK52` with
`MASK52 = 0xFFFFFFFFFFFFF`. -/
def M52 : ℕ := 2 ^ 52

/-- 2^64: the modulus of `uint64_t` (`fe_limb`) arithmetic. -/
def M64 : ℕ := 2 ^ 64

/-- 2^128: the modulus of `__uint128_t` arithmetic. -/
def M128 : ℕ := 2 ^ 128

/-- `uint64_t` addition (the limb sums `a[0]+a[1]` etc. in the Karatsuba
routine are computed on `fe_limb = uint64_t`). -/
def add64 (x y : ℕ) : ℕ := (x + y) % M64

/-- `__uint128_t` addition. -/
def add128 (x y : ℕ) : ℕ := (x + y) % M128

/-- `__uint128_t` subtraction: two's-complement wraparound mod 2^128. -/
def sub128 (x y : ℕ) : ℕ := (x + (M128 - y % M128)) % M128

/-- `(__uint128_t)x * y`: widening product, reduced mod 2^128. -/
def mul128 (x y : ℕ) : ℕ := (x * y) % M128

/-- `__uint128_t` left shift by one bit (`p10 << 1`). -/
def shl1 (x : ℕ) : ℕ := (x * 2) % M128

/-- A `FieldElement`: five limbs, index 0 least significant, each stored
in a `fe_limb = uint64_t`. -/
structure FE where
  l0 : ℕ
  l1 : ℕ
  l2 : ℕ
  l3 : ℕ
  l4 : ℕ
deriving DecidableEq, Repr

/-- The documented input invariant: every limb strictly below 2^52. -/
def Valid (x : FE) : Prop :=
  x.l0 < M52 ∧ x.l1 < M52 ∧ x.l2 < M52 ∧ x.l3 < M52 ∧ x.l4 < M52

instance (x : FE) : Decidable (Valid x) :=
  inferInstanceAs (Decidable (x.l0 < M52 ∧ x.l1 < M52 ∧ x.l2 < M52 ∧ x.l3 < M52 ∧ x.l4 < M52))

/-- `fe_mul_schoolbook` (src/benchmark.c lines 61–80): the nine
convolution sums `tmp[0..8]` in `__uint128_t`, then the carry chain over
`tmp[0..4]` writing `r[0..4]`; `tmp[5..8]` are computed but unused. -/
def fe_mul_schoolbook (a b : FE) : FE :=
  let tmp0 := mul128 a.l0 b.l0
  let tmp1 := add128 (mul128 a.l0 b.l1) (mul128 a.l1 b.l0)
  let tmp2 := add128 (add128 (mul128 a.l0 b.l2) (mul128 a.l1 b.l1)) (mul128 a.l2 b.l0)
  let tmp3 := add128 (add128 (add128 (mul128 a.l0 b.l3) (mul128 a.l1 b.l2)) (mul128 a.l2 b.l1)) (mul128 a.l3 b.l0)
  let tmp4 := add128 (add128 (add128 (add128 (mul128 a.l0 b.l4) (mul128 a.l1 b.l3)) (mul128 a.l2 b.l2)) (mul128 a.l3 b.l1)) (mul128 a.l4 b.l0)
  let tmp5 := add128 (add128 (add128 (mul128 a.l1 b.l4) (mul128 a.l2 b.l3)) (mul128 a.l3 b.l2)) (mul128 a.l4 b.l1)
  let tmp6 := add128 (add128 (mul128 a.l2 b.l4) (mul128 a.l3 b.l3)) (mul128 a.l4 b.l2)
  let tmp7 := add128 (mul128 a.l3 b.l4) (mul128 a.l4 b.l3)
  let tmp8 := mul128 a.l4 b.l4
  let r0 := tmp0 % M52
  let carry0 := tmp0 / 2 ^ 52
  let tmp1c := add128 tmp1 carry0
  let r1 := tmp1c % M52
  let carry1 := tmp1c / 2 ^ 52
  let tmp2c := add128 tmp2 carry1
  let r2 := tmp2c % M52
  let carry2 := tmp2c / 2 ^ 52
  let tmp3c := add128 tmp3 carry2
  let r3 := tmp3c % M52
  let carry3 := tmp3c / 2 ^ 52
  let tmp4c := add128 tmp4 carry3
  let r4 := tmp4c % M52
  ⟨r0, r1, r2, r3, r4⟩

/-- `fe_mul_karatsuba_opt` (src/benchmark.c lines 84–124): 14 partial
products over `uint64_t` limb sums, coefficients `c0..c8` by
add/sub mod 2^128 with shared subexpressions `S1`, `S3`, then the carry
chain over `c0..c4` (the final carry is folded into the unused `c5`). -/
def fe_mul_karatsuba_opt (a b : FE) : FE :=
  let p1 := mul128 a.l0 b.l0
  let p2 := mul128 (add64 a.l0 a.l1) (add64 b.l0 b.l1)
  let p3 := mul128 a.l1 b.l1
  let p4 := mul128 (add64 a.l0 a.l2) (add64 b.l0 b.l2)
  let p5 := mul128 (add64 (add64 (add64 a.l0 a.l1) a.l2) a.l3) (add64 (add64 (add64 b.l0 b.l1) b.l2) b.l3)
  let p6 := mul128 (add64 a.l1 a.l3) (add64 b.l1 b.l3)
  let p7 := mul128 (add64 (add64 a.l0 a.l2) a.l4) (add64 (add64 b.l0 b.l2) b.l4)
  let p8 := mul128 a.l4 b.l4
  let p9 := mul128 (add64 (add64 a.l1 a.l3) a.l4) (add64 (add64 b.l1 b.l3) b.l4)
  let p10 := mul128 a.l2 b.l2
  let p11 := mul128 (add64 a.l2 a.l3) (add64 b.l2 b.l3)
  let p12 := mul128 a.l3 b.l3
  let p13 := mul128 (add64 a.l2 a.l4) (add64 b.l2 b.l4)
  let p14 := mul128 (add64 a.l3 a.l4) (add64 b.l3 b.l4)
  let S1 := add128 p1 p3
  let S3 := sub128 p10 p8
  let c0 := p1
  let c1 := sub128 p2 S1
  let c2 := sub128 (sub128 (add128 p3 p4) p1) p10
  let c3 := add128 (add128 (sub128 (sub128 (sub128 (add128 (sub128 p5 p2) S1) p4) p6) p11) p10) p12
  let c4 := sub128 (add128 (sub128 (sub128 (add128 (sub128 p7 p4) p6) p3) p13) (shl1 p10)) p12
  let c5 := sub128 (sub128 (add128 (sub128 p9 p6) p11) p10) p14
  let c6 := sub128 (add128 p13 p12) S3
  let c7 := sub128 (sub128 p14 p12) p8
  let c8 := p8
  let c1c := add128 c1 (c0 / 2 ^ 52)
  let r0 := c0 % M52
  let c2c := add128 c2 (c1c / 2 ^ 52)
  let r1 := c1c % M52
  let c3c := add128 c3 (c2c / 2 ^ 52)
  let r2 := c2c % M52
  let c4c := add128 c4 (c3c / 2 ^ 52)
  let r3 := c3c % M52
  let c5c := add128 c5 (c4c / 2 ^ 52)
  let r4 := c4c % M52
  ⟨r0, r1, r2, r3, r4⟩

/-- The operand array `a` of `main` (src/benchmark.c lines 147–153), raw
64-bit constants, not masked. -/
def main_a : FE :=
  ⟨0x123456789ABCDEF0, 0x0FEDCBA987654321, 0x1111111111111111,
   0x2222222222222222, 0x3333333333333333⟩

/-- The operand array `b` of `main` (src/benchmark.c lines 154–160). -/
def main_b : FE :=
  ⟨0x1111111111111111, 0x2222222222222222, 0x3333333333333333,
   0x4444444444444444, 0x5555555555555555⟩

/-- The spec's §8 literal vector `a`, each limb masked to its low 52 bits
on load. -/
def main_a_masked : FE :=
  ⟨0x123456789ABCDEF0 % 2 ^ 52, 0x0FEDCBA987654321 % 2 ^ 52,
   0x1111111111111111 % 2 ^ 52, 0x2222222222222222 % 2 ^ 52,
   0x3333333333333333 % 2 ^ 52⟩

/-- The spec's §8 literal vector `b`, each limb masked to its low 52 bits
on load. -/
def main_b_masked : FE :=
  ⟨0x1111111111111111 % 2 ^ 52, 0x2222222222222222 % 2 ^ 52,
   0x3333333333333333 % 2 ^ 52, 0x4444444444444444 % 2 ^ 52,
   0x5555555555555555 % 2 ^ 52⟩

lemma M128_pos : 0 < M128 := Nat.two_pow_pos 128

instance : NeZero M128 := ⟨Nat.pos_iff_ne_zero.mp M128_pos⟩

lemma add128_lt (x y : ℕ) : add128 x y < M128 := Nat.mod_lt _ M128_pos

lemma sub128_lt (x y : ℕ) : sub128 x y < M128 := Nat.mod_lt _ M128_pos

lemma mul128_lt (x y : ℕ) : mul128 x y < M128 := Nat.mod_lt _ M128_pos

lemma natCast_add128 (x y : ℕ) :
    ((add128 x y : ℕ) : ZMod M128) = (x : ZMod M128) + (y : ZMod M128) := by
  rw [add128, ZMod.natCast_mod, Nat.cast_add]

lemma natCast_mul128 (x y : ℕ) :
    ((mul128 x y : ℕ) : ZMod M128) = (x : ZMod M128) * (y : ZMod M128) := by
  rw [mul128, ZMod.natCast_mod, Nat.cast_mul]

lemma natCast_shl1 (x : ℕ) :
    ((shl1 x : ℕ) : ZMod M128) = (x : ZMod M128) * 2 := by
  rw [shl1, ZMod.natCast_mod, Nat.cast_mul, Nat.cast_ofNat]

lemma natCast_sub128 (x y : ℕ) :
    ((sub128 x y : ℕ) : ZMod M128) = (x : ZMod M128) - (y : ZMod M128) := by
  have hle : y % M128 ≤ M128 := le_of_lt (Nat.mod_lt _ M128_pos)
  rw [sub128, ZMod.natCast_mod, Nat.cast_add, Nat.cast_sub hle, ZMod.natCast_self,
    ZMod.natCast_mod]
  ring

lemma eq_of_natCast_eq {x y : ℕ} (hx : x < M128) (hy : y < M128)
    (h : (x : ZMod M128) = (y : ZMod M128)) : x = y := by
  have hv := congrArg ZMod.val h
  rwa [ZMod.val_natCast_of_lt hx, ZMod.val_natCast_of_lt hy] at hv

/-- The Karatsuba expression for coefficient `c1` agrees with the
schoolbook convolution sum `tmp[1]`, as `__uint128_t` values. -/
lemma coefc1 (a0 a1 b0 b1 : ℕ) :
    sub128 (mul128 (a0 + a1) (b0 + b1)) (add128 (mul128 a0 b0) (mul128 a1 b1))
      = add128 (mul128 a0 b1) (mul128 a1 b0) := by
  apply eq_of_natCast_eq (sub128_lt _ _) (add128_lt _ _)
  simp only [natCast_sub128, natCast_add128, natCast_mul128, Nat.cast_add]
  ring

/-- The Karatsuba expression for coefficient `c2` agrees with the
schoolbook convolution sum `tmp[2]`, as `__uint128_t` values. -/
lemma coefc2 (a0 a1 a2 b0 b1 b2 : ℕ) :
    sub128 (sub128 (add128 (mul128 a1 b1) (mul128 (a0 + a2) (b0 + b2))) (mul128 a0 b0))
        (mul128 a2 b2)
      = add128 (add128 (mul128 a0 b2) (mul128 a1 b1)) (mul128 a2 b0) := by
  apply eq_of_natCast_eq (sub128_lt _ _) (add128_lt _ _)
  simp only [natCast_sub128, natCast_add128, natCast_mul128, Nat.cast_add]
  ring

/-- The Karatsuba expression for coefficient `c3` agrees with the
schoolbook convolution sum `tmp[3]`, as `__uint128_t` values. -/
lemma coefc3 (a0 a1 a2 a3 b0 b1 b2 b3 : ℕ) :
    add128 (add128 (sub128 (sub128 (sub128 (add128 (sub128
          (mul128 (a0 + a1 + a2 + a3) (b0 + b1 + b2 + b3))
          (mul128 (a0 + a1) (b0 + b1)))
          (add128 (mul128 a0 b0) (mul128 a1 b1)))
          (mul128 (a0 + a2) (b0 + b2)))
          (mul128 (a1 + a3) (b1 + b3)))
          (mul128 (a2 + a3) (b2 + b3)))
          (mul128 a2 b2))
          (mul128 a3 b3)
      = add128 (add128 (add128 (mul128 a0 b3) (mul128 a1 b2)) (mul128 a2 b1))
          (mul128 a3 b0) := by
  apply eq_of_natCast_eq (add128_lt _ _) (add128_lt _ _)
  simp only [natCast_sub128, natCast_add128, natCast_mul128, Nat.cast_add]
  ring

/-- The Karatsuba expression for coefficient `c4` agrees with the
schoolbook convolution sum `tmp[4]`, as `__uint128_t` values. -/
lemma coefc4 (a0 a1 a2 a3 a4 b0 b1 b2 b3 b4 : ℕ) :
    sub128 (add128 (sub128 (sub128 (add128 (sub128
          (mul128 (a0 + a2 + a4) (b0 + b2 + b4))
          (mul128 (a0 + a2) (b0 + b2)))
          (mul128 (a1 + a3) (b1 + b3)))
          (mul128 a1 b1))
          (mul128 (a2 + a4) (b2 + b4)))
          (shl1 (mul128 a2 b2)))
          (mul128 a3 b3)
      = add128 (add128 (add128 (add128 (mul128 a0 b4) (mul128 a1 b3)) (mul128 a2 b2))
          (mul128 a3 b1)) (mul128 a4 b0) := by
  apply eq_of_natCast_eq (sub128_lt _ _) (add128_lt _ _)
  simp only [natCast_sub128, natCast_add128, natCast_mul128, natCast_shl1, Nat.cast_add]
  ring

lemma add64_eq {x y : ℕ} (h : x + y < M64) : add64 x y = x + y := Nat.mod_eq_of_lt h

lemma karatsuba_schoolbook_agree (a b : FE) (ha : Valid a) (hb : Valid b) :
    fe_mul_karatsuba_opt a b = fe_mul_schoolbook a b := by
  obtain ⟨a0, a1, a2, a3, a4⟩ := a
  obtain ⟨b0, b1, b2, b3, b4⟩ := b
  simp only [Valid, M52] at ha hb
  obtain ⟨ha0, ha1, ha2, ha3, ha4⟩ := ha
  obtain ⟨hb0, hb1, hb2, hb3, hb4⟩ := hb
  have sa01 : add64 a0 a1 = a0 + a1 := add64_eq (by simp only [M64]; omega)
  have sa02 : add64 a0 a2 = a0 + a2 := add64_eq (by simp only [M64]; omega)
  have sa13 : add64 a1 a3 = a1 + a3 := add64_eq (by simp only [M64]; omega)
  have sa23 : add64 a2 a3 = a2 + a3 := add64_eq (by simp only [M64]; omega)
  have sa24 : add64 a2 a4 = a2 + a4 := add64_eq (by simp only [M64]; omega)
  have sa012 : add64 (a0 + a1) a2 = a0 + a1 + a2 := add64_eq (by simp only [M64]; omega)
  have sa0123 : add64 (a0 + a1 + a2) a3 = a0 + a1 + a2 + a3 :=
    add64_eq (by simp only [M64]; omega)
  have sa024 : add64 (a0 + a2) a4 = a0 + a2 + a4 := add64_eq (by simp only [M64]; omega)
  have sb01 : add64 b0 b1 = b0 + b1 := add64_eq (by simp only [M64]; omega)
  have sb02 : add64 b0 b2 = b0 + b2 := add64_eq (by simp only [M64]; omega)
  have sb13 : add64 b1 b3 = b1 + b3 := add64_eq (by simp only [M64]; omega)
  have sb23 : add64 b2 b3 = b2 + b3 := add64_eq (by simp only [M64]; omega)
  have sb24 : add64 b2 b4 = b2 + b4 := add64_eq (by simp only [M64]; omega)
  have sb012 : add64 (b0 + b1) b2 = b0 + b1 + b2 := add64_eq (by simp only [M64]; omega)
  have sb0123 : add64 (b0 + b1 + b2) b3 = b0 + b1 + b2 + b3 :=
    add64_eq (by simp only [M64]; omega)
  have sb024 : add64 (b0 + b2) b4 = b0 + b2 + b4 := add64_eq (by simp only [M64]; omega)
  simp only [fe_mul_karatsuba_opt, fe_mul_schoolbook]
  rw [sa01, sa02, sa13, sa23, sa24, sa012, sa0123, sa024,
    sb01, sb02, sb13, sb23, sb24, sb012, sb0123, sb024,
    coefc1 a0 a1 b0 b1, coefc2 a0 a1 a2 b0 b1 b2,
    coefc3 a0 a1 a2 a3 b0 b1 b2 b3, coefc4 a0 a1 a2 a3 a4 b0 b1 b2 b3 b4]

/-- Claim C1: for every pair of 5-limb inputs `a`, `b` with every limb
strictly less than 2^52, the decomposed (Karatsuba) multiplier
`fe_mul_karatsuba_opt` and the convolution (schoolbook) multiplier
`fe_mul_schoolbook` produce exactly the same five output limbs. -/
theorem karatsuba_eq_schoolbook (a b : FE) (ha : Valid a) (hb : Valid b) :
    fe_mul_karatsuba_opt a b = fe_mul_schoolbook a b :=
  karatsuba_schoolbook_agree a b ha hb

/-- Witness for C1 at the spec's §8 masked vector. -/
theorem karatsuba_eq_schoolbook_witness :
    Valid main_a_masked ∧ Valid main_b_masked ∧
      fe_mul_karatsuba_opt main_a_masked main_b_masked
        = fe_mul_schoolbook main_a_masked main_b_masked :=
  ⟨by decide, by decide,
    karatsuba_eq_schoolbook main_a_masked main_b_masked (by decide) (by decide)⟩

/-- Reference definition, following the spec's words (§4.1 convolution
sums in exact integer arithmetic, §4.3 carry rule): `t[k] = Σ_{i+j=k}
a[i]*b[j]`; for i = 0..3, `r[i] = t[i] mod 2^52` and `floor(t[i]/2^52)`
is added into `t[i+1]`; finally `r[4] = t[4] mod 2^52`. -/
def schoolbook_ref (a b : FE) : FE :=
  let t0 := a.l0 * b.l0
  let t1 := a.l0 * b.l1 + a.l1 * b.l0
  let t2 := a.l0 * b.l2 + a.l1 * b.l1 + a.l2 * b.l0
  let t3 := a.l0 * b.l3 + a.l1 * b.l2 + a.l2 * b.l1 + a.l3 * b.l0
  let t4 := a.l0 * b.l4 + a.l1 * b.l3 + a.l2 * b.l2 + a.l3 * b.l1 + a.l4 * b.l0
  let t1c := t1 + t0 / 2 ^ 52
  let t2c := t2 + t1c / 2 ^ 52
  let t3c := t3 + t2c / 2 ^ 52
  let t4c := t4 + t3c / 2 ^ 52
  ⟨t0 % 2 ^ 52, t1c % 2 ^ 52, t2c % 2 ^ 52, t3c % 2 ^ 52, t4c % 2 ^ 52⟩

lemma limb_mul_lt {x y : ℕ} (hx : x < 2 ^ 52) (hy : y < 2 ^ 52) :
    x * y ≤ (2 ^ 52 - 1) * (2 ^ 52 - 1) :=
  Nat.mul_le_mul (by omega) (by omega)

lemma schoolbook_ref_agree (a b : FE) (ha : Valid a) (hb : Valid b) :
    fe_mul_schoolbook a b = schoolbook_ref a b := by
  obtain ⟨a0, a1, a2, a3, a4⟩ := a
  obtain ⟨b0, b1, b2, b3, b4⟩ := b
  simp only [Valid, M52] at ha hb
  obtain ⟨ha0, ha1, ha2, ha3, ha4⟩ := ha
  obtain ⟨hb0, hb1, hb2, hb3, hb4⟩ := hb
  have m00 := limb_mul_lt ha0 hb0
  have m01 := limb_mul_lt ha0 hb1
  have m02 := limb_mul_lt ha0 hb2
  have m03 := limb_mul_lt ha0 hb3
  have m04 := limb_mul_lt ha0 hb4
  have m10 := limb_mul_lt ha1 hb0
  have m11 := limb_mul_lt ha1 hb1
  have m12 := limb_mul_lt ha1 hb2
  have m13 := limb_mul_lt ha1 hb3
  have m20 := limb_mul_lt ha2 hb0
  have m21 := limb_mul_lt ha2 hb1
  have m22 := limb_mul_lt ha2 hb2
  have m30 := limb_mul_lt ha3 hb0
  have m31 := limb_mul_lt ha3 hb1
  have m40 := limb_mul_lt ha4 hb0
  simp only [fe_mul_schoolbook, schoolbook_ref, add128, mul128, M128, M52, FE.mk.injEq]
  refine ⟨?_, ?_, ?_, ?_, ?_⟩ <;> omega

/-- Claim C2: on bounded inputs, `fe_mul_schoolbook` (whose arithmetic is
mod 2^128) returns exactly the result of the exact-arithmetic reference
`schoolbook_ref`: no `__uint128_t` accumulator ever wraps. -/
theorem schoolbook_eq_ref (a b : FE) (ha : Valid a) (hb : Valid b) :
    fe_mul_schoolbook a b = schoolbook_ref a b :=
  schoolbook_ref_agree a b ha hb

/-- Witness for C2 at the spec's §8 masked vector. -/
theorem schoolbook_eq_ref_witness :
    Valid main_a_masked ∧ Valid main_b_masked ∧
      fe_mul_schoolbook main_a_masked main_b_masked
        = schoolbook_ref main_a_masked main_b_masked :=
  ⟨by decide, by decide,
    schoolbook_eq_ref main_a_masked main_b_masked (by decide) (by decide)⟩

/-- Claim C3: on bounded inputs, output limbs `r[0..3]` of either
multiplier are strictly below 2^52 (each is stored masked by `MASK52`). -/
theorem low_limbs_bounded (a b : FE) (ha : Valid a) (hb : Valid b) :
    ((fe_mul_schoolbook a b).l0 < 2 ^ 52 ∧ (fe_mul_schoolbook a b).l1 < 2 ^ 52 ∧
      (fe_mul_schoolbook a b).l2 < 2 ^ 52 ∧ (fe_mul_schoolbook a b).l3 < 2 ^ 52) ∧
    ((fe_mul_karatsuba_opt a b).l0 < 2 ^ 52 ∧ (fe_mul_karatsuba_opt a b).l1 < 2 ^ 52 ∧
      (fe_mul_karatsuba_opt a b).l2 < 2 ^ 52 ∧ (fe_mul_karatsuba_opt a b).l3 < 2 ^ 52) := by
  simp only [fe_mul_schoolbook, fe_mul_karatsuba_opt, M52]
  omega

/-- Witness for C3 at the spec's §8 masked vector. -/
theorem low_limbs_bounded_witness :
    Valid main_a_masked ∧ Valid main_b_masked ∧
      (((fe_mul_schoolbook main_a_masked main_b_masked).l0 < 2 ^ 52 ∧
        (fe_mul_schoolbook main_a_masked main_b_masked).l1 < 2 ^ 52 ∧
        (fe_mul_schoolbook main_a_masked main_b_masked).l2 < 2 ^ 52 ∧
        (fe_mul_schoolbook main_a_masked main_b_masked).l3 < 2 ^ 52) ∧
      ((fe_mul_karatsuba_opt main_a_masked main_b_masked).l0 < 2 ^ 52 ∧
        (fe_mul_karatsuba_opt main_a_masked main_b_masked).l1 < 2 ^ 52 ∧
        (fe_mul_karatsuba_opt main_a_masked main_b_masked).l2 < 2 ^ 52 ∧
        (fe_mul_karatsuba_opt main_a_masked main_b_masked).l3 < 2 ^ 52)) :=
  ⟨by decide, by decide,
    low_limbs_bounded main_a_masked main_b_masked (by decide) (by decide)⟩

/-- Claim C4 (refuted): there is no pair of valid inputs on which either
multiplier stores a top limb `r[4]` of 2^52 or more — line 79 and
line 123 mask the top accumulator with `MASK52` before storing it. -/
theorem no_valid_pair_overflows_top_limb :
    ¬ ∃ a b : FE, Valid a ∧ Valid b ∧
      (2 ^ 52 ≤ (fe_mul_schoolbook a b).l4 ∨ 2 ^ 52 ≤ (fe_mul_karatsuba_opt a b).l4) := by
  rintro ⟨a, b, -, -, h | h⟩
  · exact absurd h (by simp only [fe_mul_schoolbook, M52]; omega)
  · exact absurd h (by simp only [fe_mul_karatsuba_opt, M52]; omega)

/-- Claim C4 as amended: for every pair of valid inputs, the stored top
limb `r[4]` is strictly below 2^52 for both multipliers — the carry out
of the top limb is not propagated but the stored value is masked. -/
theorem top_limb_masked_below (a b : FE) (ha : Valid a) (hb : Valid b) :
    (fe_mul_schoolbook a b).l4 < 2 ^ 52 ∧ (fe_mul_karatsuba_opt a b).l4 < 2 ^ 52 := by
  simp only [fe_mul_schoolbook, fe_mul_karatsuba_opt, M52]
  omega

/-- Witness for the amended C4 at the spec's §8 masked vector. -/
theorem top_limb_masked_below_witness :
    Valid main_a_masked ∧ Valid main_b_masked ∧
      ((fe_mul_schoolbook main_a_masked main_b_masked).l4 < 2 ^ 52 ∧
        (fe_mul_karatsuba_opt main_a_masked main_b_masked).l4 < 2 ^ 52) :=
  ⟨by decide, by decide,
    top_limb_masked_below main_a_masked main_b_masked (by decide) (by decide)⟩

/-- Claim C9: on bounded inputs all five output limbs of either
multiplier, including `r[4]`, are strictly below 2^52, because both
strategies mask the top accumulator with the 52-bit mask before storing. -/
theorem all_limbs_bounded (a b : FE) (ha : Valid a) (hb : Valid b) :
    ((fe_mul_schoolbook a b).l0 < 2 ^ 52 ∧ (fe_mul_schoolbook a b).l1 < 2 ^ 52 ∧
      (fe_mul_schoolbook a b).l2 < 2 ^ 52 ∧ (fe_mul_schoolbook a b).l3 < 2 ^ 52 ∧
      (fe_mul_schoolbook a b).l4 < 2 ^ 52) ∧
    ((fe_mul_karatsuba_opt a b).l0 < 2 ^ 52 ∧ (fe_mul_karatsuba_opt a b).l1 < 2 ^ 52 ∧
      (fe_mul_karatsuba_opt a b).l2 < 2 ^ 52 ∧ (fe_mul_karatsuba_opt a b).l3 < 2 ^ 52 ∧
      (fe_mul_karatsuba_opt a b).l4 < 2 ^ 52) := by
  simp only [fe_mul_schoolbook, fe_mul_karatsuba_opt, M52]
  omega

/-- Witness for C9 at the spec's §8 masked vector. -/
theorem all_limbs_bounded_witness :
    Valid main_a_masked ∧ Valid main_b_masked ∧
      (((fe_mul_schoolbook main_a_masked main_b_masked).l0 < 2 ^ 52 ∧
        (fe_mul_schoolbook main_a_masked main_b_masked).l1 < 2 ^ 52 ∧
        (fe_mul_schoolbook main_a_masked main_b_masked).l2 < 2 ^ 52 ∧
        (fe_mul_schoolbook main_a_masked main_b_masked).l3 < 2 ^ 52 ∧
        (fe_mul_schoolbook main_a_masked main_b_masked).l4 < 2 ^ 52) ∧
      ((fe_mul_karatsuba_opt main_a_masked main_b_masked).l0 < 2 ^ 52 ∧
        (fe_mul_karatsuba_opt main_a_masked main_b_masked).l1 < 2 ^ 52 ∧
        (fe_mul_karatsuba_opt main_a_masked main_b_masked).l2 < 2 ^ 52 ∧
        (fe_mul_karatsuba_opt main_a_masked main_b_masked).l3 < 2 ^ 52 ∧
        (fe_mul_karatsuba_opt main_a_masked main_b_masked).l4 < 2 ^ 52)) :=
  ⟨by decide, by decide,
    all_limbs_bounded main_a_masked main_b_masked (by decide) (by decide)⟩

/-- Variant of `fe_mul_schoolbook` that omits the dead high-order
convolution sums `tmp[5..8]` (src/benchmark.c lines 69–72). -/
def fe_mul_schoolbook_trimmed (a b : FE) : FE :=
  let tmp0 := mul128 a.l0 b.l0
  let tmp1 := add128 (mul128 a.l0 b.l1) (mul128 a.l1 b.l0)
  let tmp2 := add128 (add128 (mul128 a.l0 b.l2) (mul128 a.l1 b.l1)) (mul128 a.l2 b.l0)
  let tmp3 := add128 (add128 (add128 (mul128 a.l0 b.l3) (mul128 a.l1 b.l2)) (mul128 a.l2 b.l1)) (mul128 a.l3 b.l0)
  let tmp4 := add128 (add128 (add128 (add128 (mul128 a.l0 b.l4) (mul128 a.l1 b.l3)) (mul128 a.l2 b.l2)) (mul128 a.l3 b.l1)) (mul128 a.l4 b.l0)
  let r0 := tmp0 % M52
  let carry0 := tmp0 / 2 ^ 52
  let tmp1c := add128 tmp1 carry0
  let r1 := tmp1c % M52
  let carry1 := tmp1c / 2 ^ 52
  let tmp2c := add128 tmp2 carry1
  let r2 := tmp2c % M52
  let carry2 := tmp2c / 2 ^ 52
  let tmp3c := add128 tmp3 carry2
  let r3 := tmp3c % M52
  let carry3 := tmp3c / 2 ^ 52
  let tmp4c := add128 tmp4 carry3
  let r4 := tmp4c % M52
  ⟨r0, r1, r2, r3, r4⟩

/-- Variant of `fe_mul_karatsuba_opt` that omits computing `S3`,
`c5`–`c8`, the products `p8`, `p9`, `p14` used only by them, and the
final carry folded into `c5` (src/benchmark.c lines 113–116 and 123). -/
def fe_mul_karatsuba_trimmed (a b : FE) : FE :=
  let p1 := mul128 a.l0 b.l0
  let p2 := mul128 (add64 a.l0 a.l1) (add64 b.l0 b.l1)
  let p3 := mul128 a.l1 b.l1
  let p4 := mul128 (add64 a.l0 a.l2) (add64 b.l0 b.l2)
  let p5 := mul128 (add64 (add64 (add64 a.l0 a.l1) a.l2) a.l3) (add64 (add64 (add64 b.l0 b.l1) b.l2) b.l3)
  let p6 := mul128 (add64 a.l1 a.l3) (add64 b.l1 b.l3)
  let p7 := mul128 (add64 (add64 a.l0 a.l2) a.l4) (add64 (add64 b.l0 b.l2) b.l4)
  let p10 := mul128 a.l2 b.l2
  let p11 := mul128 (add64 a.l2 a.l3) (add64 b.l2 b.l3)
  let p12 := mul128 a.l3 b.l3
  let p13 := mul128 (add64 a.l2 a.l4) (add64 b.l2 b.l4)
  let S1 := add128 p1 p3
  let c0 := p1
  let c1 := sub128 p2 S1
  let c2 := sub128 (sub128 (add128 p3 p4) p1) p10
  let c3 := add128 (add128 (sub128 (sub128 (sub128 (add128 (sub128 p5 p2) S1) p4) p6) p11) p10) p12
  let c4 := sub128 (add128 (sub128 (sub128 (add128 (sub128 p7 p4) p6) p3) p13) (shl1 p10)) p12
  let c1c := add128 c1 (c0 / 2 ^ 52)
  let r0 := c0 % M52
  let c2c := add128 c2 (c1c / 2 ^ 52)
  let r1 := c1c % M52
  let c3c := add128 c3 (c2c / 2 ^ 52)
  let r2 := c2c % M52
  let c4c := add128 c4 (c3c / 2 ^ 52)
  let r3 := c3c % M52
  let r4 := c4c % M52
  ⟨r0, r1, r2, r3, r4⟩

/-- Claim C5: the dead high-order work does not influence the observable
output — the variants without `c5..c8` (and its carry fold) and without
`tmp[5..8]` return exactly the original functions' five limbs, for every
pair of inputs. -/
theorem dead_work_elision (a b : FE) :
    fe_mul_karatsuba_trimmed a b = fe_mul_karatsuba_opt a b ∧
      fe_mul_schoolbook_trimmed a b = fe_mul_schoolbook a b :=
  ⟨rfl, rfl⟩

/-- The all-zero operand `(0,0,0,0,0)`. -/
def zeroFE : FE := ⟨0, 0, 0, 0, 0⟩

/-- The operand `(1,0,0,0,0)`. -/
def oneFE : FE := ⟨1, 0, 0, 0, 0⟩

/-- Claim C6: zero absorption — multiplying the all-zero operand by any
bounded `b` yields the all-zero result, for both multipliers. -/
theorem zero_absorption (b : FE) (hb : Valid b) :
    fe_mul_schoolbook zeroFE b = zeroFE ∧ fe_mul_karatsuba_opt zeroFE b = zeroFE := by
  obtain ⟨b0, b1, b2, b3, b4⟩ := b
  constructor <;>
    simp [fe_mul_schoolbook, fe_mul_karatsuba_opt, zeroFE, mul128, add128, sub128,
      add64, shl1, M128, M64, M52]

/-- Witness for C6 at the spec's §8 masked vector `b`. -/
theorem zero_absorption_witness :
    Valid main_b_masked ∧
      (fe_mul_schoolbook zeroFE main_b_masked = zeroFE ∧
        fe_mul_karatsuba_opt zeroFE main_b_masked = zeroFE) :=
  ⟨by decide, zero_absorption main_b_masked (by decide)⟩

/-- Claim C7: multiplying a bounded `a` by `(1,0,0,0,0)` returns `a`
itself, limb for limb, for both multipliers. -/
theorem mul_one_identity (a : FE) (ha : Valid a) :
    fe_mul_schoolbook a oneFE = a ∧ fe_mul_karatsuba_opt a oneFE = a := by
  have hone : Valid oneFE := by decide
  have href : schoolbook_ref a oneFE = a := by
    obtain ⟨a0, a1, a2, a3, a4⟩ := a
    simp only [Valid, M52] at ha
    obtain ⟨ha0, ha1, ha2, ha3, ha4⟩ := ha
    simp only [schoolbook_ref, oneFE, FE.mk.injEq, mul_one, mul_zero, zero_add, add_zero]
    omega
  exact ⟨(schoolbook_ref_agree a oneFE ha hone).trans href,
    ((karatsuba_schoolbook_agree a oneFE ha hone).trans
      (schoolbook_ref_agree a oneFE ha hone)).trans href⟩

/-- Witness for C7 at the spec's §8 masked vector `a`. -/
theorem mul_one_identity_witness :
    Valid main_a_masked ∧
      (fe_mul_schoolbook main_a_masked oneFE = main_a_masked ∧
        fe_mul_karatsuba_opt main_a_masked oneFE = main_a_masked) :=
  ⟨by decide, mul_one_identity main_a_masked (by decide)⟩

/-- Claim C8: on the spec's §8 literal vectors, each limb masked to its
low 52 bits on load, the two strategies yield the identical 5-limb
result. -/
theorem masked_vector_agree :
    fe_mul_schoolbook main_a_masked main_b_masked
      = fe_mul_karatsuba_opt main_a_masked main_b_masked := by decide

/-- Claim C10: on the harness's actual raw 64-bit operand arrays — which
violate the documented limb bound — the two multipliers still return
identical outputs, so `main`'s element-for-element check succeeds. -/
theorem raw_vector_agree :
    ¬ Valid main_a ∧ ¬ Valid main_b ∧
      fe_mul_schoolbook main_a main_b = fe_mul_karatsuba_opt main_a main_b :=
  ⟨by decide, by decide, by decide⟩
